import Mathlib

/-!
Verification of the ProxyForge Gateway Orchestration Engine.

Shallow embedding of the rotation controller (`ProxyManager` in
`src/extension/background.js`) and the gateway client pipeline
(`APIGateway`, `RateLimiter`, `CacheManager`, `APIGatewayFactory` in
`src/extension/apiGateway.js`, shipped inside `localProxyConnector.js`).

Modelling conventions, each noted again at the definition it concerns:
* JavaScript `Map` objects are association lists in insertion order;
  `Map.set` on a present key updates the value in place (keeping the
  original position), on an absent key it appends.
* JavaScript object literals with spreads are modelled by repeated
  association-list update, later writes winning.
* The JS number `NaN` (which arises from `x % 0`) is modelled by `none`
  in an `Option Nat` index; every arithmetic operation on `none` yields
  `none`, and every `<`/`>=` comparison against `none` is `false`,
  exactly as for `NaN`.
* `new URL(u)` is an external host facility; functions that parse URLs
  take the parse result (`Option URLParts`, or the origin string) as an
  explicit argument, `none` standing for a parse failure (the thrown
  `TypeError` that the source catches).
* `Math.floor(Math.random() * n)` is modelled by an explicit draw
  argument reduced modulo `n` (and `0` when `n = 0`, as in JS).
-/

namespace ProxyForge

/-- Containment of `needle` as a contiguous run inside `hay`. -/
def charsContain (hay needle : List Char) : Bool :=
  needle.isPrefixOf hay ||
    match hay with
    | [] => false
    | _ :: t => charsContain t needle

/-- The JS `String.prototype.includes` substring test. -/
def jsIncludes (s sub : String) : Bool :=
  charsContain s.toList sub.toList

/-- The JS `String.prototype.startsWith` test, over the character
list. -/
def jsStartsWith (s pre : String) : Bool :=
  pre.toList.isPrefixOf s.toList

/-- The JS `String.prototype.endsWith` test, over the character list. -/
def jsEndsWith (s suf : String) : Bool :=
  suf.toList.reverse.isPrefixOf s.toList.reverse

/-- The JS `x || d` idiom on an optional number: `0` is falsy in JS, so a
present `0` still yields the default. -/
def jsOrNat (o : Option Nat) (d : Nat) : Nat :=
  match o with
  | some n => if n = 0 then d else n
  | none => d

/-- Lookup in a JS `Map` (or plain object) modelled as an association
list in insertion order. -/
def mapGet {α β : Type} [DecidableEq α] : List (α × β) → α → Option β
  | [], _ => none
  | (k, v) :: t, key => if k = key then some v else mapGet t key

/-- `Map.set`: update in place when the key is present (keeping its
insertion position, as JS does), append when absent. -/
def mapSet {α β : Type} [DecidableEq α] : List (α × β) → α → β → List (α × β)
  | [], key, val => [(key, val)]
  | (k, v) :: t, key, val =>
      if k = key then (key, val) :: t else (k, v) :: mapSet t key val

/-- `Map.delete`: remove the entry for a key (keys are unique in a JS
map, so removing the first occurrence is exact). -/
def mapDelete {α β : Type} [DecidableEq α] : List (α × β) → α → List (α × β)
  | [], _ => []
  | (k, v) :: t, key => if k = key then t else (k, v) :: mapDelete t key

/-- Shallow object merge `\x7b...a, ...b\x7d`: entries of `b` override
entries of `a` of the same key. -/
def objMerge (a b : List (String × String)) : List (String × String) :=
  b.foldl (fun acc kv => mapSet acc kv.1 kv.2) a

/-! ## CacheManager (`apiGateway.js`, class `CacheManager`) -/

/-- A cache entry: `\x7bdata, timestamp\x7d` as stored by
`CacheManager.set`.  Values are modelled as strings. -/
structure CacheEntry where
  data : String
  timestamp : Nat
deriving DecidableEq, Repr

/-- The `CacheManager` state: `ttl`, `maxSize`, and the backing JS `Map`
in insertion order. -/
structure CacheManager where
  ttl : Nat
  maxSize : Nat
  cache : List (String × CacheEntry)
deriving DecidableEq, Repr

/-- The `CacheManager` constructor: `ttl = config.ttl || 300000`,
`maxSize = config.maxSize || 100`, empty map. -/
def mkCacheManager (ttl maxSize : Option Nat) : CacheManager :=
  { ttl := jsOrNat ttl 300000, maxSize := jsOrNat maxSize 100, cache := [] }

/-- `CacheManager.get`: absent key or an entry older than `ttl` (which is
deleted lazily) reads as `null`; `now` is the `Date.now()` value. -/
def CacheManager.get (c : CacheManager) (key : String) (now : Nat) :
    Option String × CacheManager :=
  match mapGet c.cache key with
  | none => (none, c)
  | some entry =>
      if c.ttl < now - entry.timestamp then
        (none, { c with cache := mapDelete c.cache key })
      else
        (some entry.data, c)

/-- `CacheManager.set`: when `cache.size >= maxSize`, delete
`cache.keys().next().value` — the first key in insertion order (on an
empty map that value is `undefined` and the delete is a no-op) — then
insert the new entry. -/
def CacheManager.set (c : CacheManager) (key data : String) (now : Nat) :
    CacheManager :=
  let c1 :=
    if c.maxSize ≤ c.cache.length then
      match c.cache with
      | [] => c
      | (firstKey, _) :: _ => { c with cache := mapDelete c.cache firstKey }
    else c
  { c1 with cache := mapSet c1.cache key { data := data, timestamp := now } }

/-- The keys currently present in a cache, in insertion order. -/
def CacheManager.keys (c : CacheManager) : List String :=
  c.cache.map Prod.fst

/-! ## Retry loop of `APIGateway.createHandler` (`apiGateway.js`)

The handler body runs interceptors, rate limiting and the GET-cache
lookup, then the retry loop over `executeRequest`.  The loop is the part
the retry claims are about; the network is abstracted as a function from
the attempt number to that attempt's outcome. -/

/-- Outcome of one run of the handler's retry section: how many attempts
`executeRequest` was given, the backoff delays awaited (in ms, in
order), and what the handler returns or throws. -/
structure HandlerOutcome (E R : Type) where
  attempts : Nat
  delays : List Nat
  result : Except E R
deriving Repr

/-- The retry loop from attempt number `attempt` with `remaining` further
attempts allowed after the current one.  On success the loop returns the
data; on failure with attempts remaining it waits
`Math.pow(2, attempt) * 1000` ms and retries; on failure of the last
attempt the last error is rethrown. -/
def retryFrom {E R : Type} (res : Nat → Except E R) :
    Nat → Nat → HandlerOutcome E R
  | remaining, attempt =>
    match res attempt with
    | .ok r => { attempts := 1, delays := [], result := .ok r }
    | .error e =>
        match remaining with
        | 0 => { attempts := 1, delays := [], result := .error e }
        | n + 1 =>
            let rest := retryFrom res n (attempt + 1)
            { attempts := rest.attempts + 1,
              delays := 2 ^ attempt * 1000 :: rest.delays,
              result := rest.result }

/-- The whole retry section of a handler configured with
`retries = maxRetries`: the `for` loop runs `attempt = 0 .. retries`. -/
def handlerRun {E R : Type} (maxRetries : Nat) (res : Nat → Except E R) :
    HandlerOutcome E R :=
  retryFrom res maxRetries 0

/-- `this.metrics.errors++` fires exactly when the loop exhausts all
attempts and rethrows, i.e. when the outcome is an error. -/
def errorsDelta {E R : Type} (o : HandlerOutcome E R) : Nat :=
  match o.result with
  | .error _ => 1
  | .ok _ => 0

/-! ## APIGateway configuration and request building (`apiGateway.js`) -/

/-- The JS `x || d` idiom on an optional string: the empty string is
falsy in JS. -/
def jsOrStr (o : Option String) (d : String) : String :=
  match o with
  | some s => if s = "" then d else s
  | none => d

/-- The `config.authentication` object, one constructor per case of the
`switch (auth.type)` in `applyAuthentication`; `unknown` covers every
other `type` value (which adds no header). -/
inductive AuthConfig
  | bearer (token : String)
  | apiKey (location : String) (key : Option String) (value : String)
  | basic (username password : String)
  | oauth2 (accessToken : String)
  | unknown
deriving DecidableEq, Repr

/-- The host builtin `btoa` (base64 of the credential string).  The
encoding itself is external; it is abstracted as the identity, no claim
inspects the encoded value. -/
def btoaModel (s : String) : String := s

/-- `APIGateway.applyAuthentication`: mutates the headers object per the
configured scheme. -/
def applyAuthentication (auth : AuthConfig) (headers : List (String × String)) :
    List (String × String) :=
  match auth with
  | .bearer token => mapSet headers "Authorization" ("Bearer " ++ token)
  | .apiKey location key value =>
      if location = "header" then
        mapSet headers (jsOrStr key "X-API-Key") value
      else headers
  | .basic username password =>
      mapSet headers "Authorization" ("Basic " ++ btoaModel (username ++ ":" ++ password))
  | .oauth2 accessToken => mapSet headers "Authorization" ("Bearer " ++ accessToken)
  | .unknown => headers

/-- Interceptors are JS function values observable here only by identity
and registration order; the two wired on by the controller are named,
anything else is `custom`. -/
inductive InterceptorTag
  | proxyRouting
  | responseTracking
  | custom (n : Nat)
deriving DecidableEq, Repr

/-- The `\x7brequest: [], response: []\x7d` interceptor record. -/
structure InterceptorLists where
  request : List InterceptorTag
  response : List InterceptorTag
deriving DecidableEq, Repr

/-- A `rateLimit` config object (fields read by the `RateLimiter`
constructor with `|| 10` and `|| 1000` defaults). -/
structure RateLimitConfig where
  maxRequests : Option Nat
  windowMs : Option Nat
deriving DecidableEq, Repr

/-- A `caching` config object as passed to the `CacheManager`
constructor. -/
structure CacheConfig where
  ttl : Option Nat
  maxSize : Option Nat
deriving DecidableEq, Repr

/-- A raw JS config object as handed to `new APIGateway(url, config)`,
to templates, and to `createFromTemplate` overrides; `none` is an absent
key.  The `transformers` field of the source is carried nowhere (it is
written once in the constructor and never read), so it is omitted. -/
structure RawGatewayConfig where
  timeout : Option Nat := none
  retries : Option Nat := none
  headers : Option (List (String × String)) := none
  rateLimit : Option RateLimitConfig := none
  caching : Option CacheConfig := none
  authentication : Option AuthConfig := none
  interceptors : Option InterceptorLists := none
deriving DecidableEq, Repr

/-- The JS spread merge `\x7b...a, ...b\x7d` of two config objects:
keys present in `b` win. -/
def jsConfigMerge (a b : RawGatewayConfig) : RawGatewayConfig :=
  { timeout := b.timeout <|> a.timeout,
    retries := b.retries <|> a.retries,
    headers := b.headers <|> a.headers,
    rateLimit := b.rateLimit <|> a.rateLimit,
    caching := b.caching <|> a.caching,
    authentication := b.authentication <|> a.authentication,
    interceptors := b.interceptors <|> a.interceptors }

/-- The resolved `this.config` of an `APIGateway` after the constructor
applies its defaults. -/
structure GatewayConfig where
  timeout : Nat
  retries : Nat
  headers : List (String × String)
  rateLimit : Option RateLimitConfig
  caching : Option CacheConfig
  authentication : Option AuthConfig
  interceptors : InterceptorLists
deriving DecidableEq, Repr

/-- Constructor defaulting: `config.timeout || 30000`,
`config.retries || 3`, `config.headers || \x7b\x7d`, objects pass
through (JS objects are truthy). -/
def resolveConfig (c : RawGatewayConfig) : GatewayConfig :=
  { timeout := jsOrNat c.timeout 30000,
    retries := jsOrNat c.retries 3,
    headers := c.headers.getD [],
    rateLimit := c.rateLimit,
    caching := c.caching,
    authentication := c.authentication,
    interceptors := c.interceptors.getD { request := [], response := [] } }

/-- The `this.metrics` record of a gateway. -/
structure Metrics where
  requests : Nat
  errors : Nat
  latency : List Nat
  lastRequest : Option Nat
deriving DecidableEq, Repr

/-- A declared endpoint record (the `handlers` map holds function values
and is observable only through the declared methods). -/
structure Endpoint where
  path : String
  methods : List String
  created : Nat
deriving DecidableEq, Repr

/-- An `APIGateway` instance.  `this.rateLimiter` is determined by
`config.rateLimit` and its pending queue is not modelled (no claim
touches it); `this.middleware` is never read and is omitted. -/
structure APIGateway where
  baseUrl : String
  config : GatewayConfig
  endpoints : List (String × Endpoint)
  metrics : Metrics
  cache : Option CacheManager
deriving DecidableEq, Repr

/-- `new APIGateway(baseUrl, config)`.  `normalizeUrl` reduces the URL
to `origin + pathname` minus a trailing slash; the factory always passes
an origin string, on which that is the identity, so the base URL is
stored as given. -/
def mkAPIGateway (baseUrl : String) (config : RawGatewayConfig) : APIGateway :=
  { baseUrl := baseUrl,
    config := resolveConfig config,
    endpoints := [],
    metrics := { requests := 0, errors := 0, latency := [], lastRequest := none },
    cache := config.caching.map (fun cc => mkCacheManager cc.ttl cc.maxSize) }

/-- `addRequestInterceptor`: appends to the request interceptor list. -/
def APIGateway.addRequestInterceptor (g : APIGateway) (t : InterceptorTag) : APIGateway :=
  { g with config := { g.config with interceptors :=
      { g.config.interceptors with request := g.config.interceptors.request ++ [t] } } }

/-- `addResponseInterceptor`: appends to the response interceptor list. -/
def APIGateway.addResponseInterceptor (g : APIGateway) (t : InterceptorTag) : APIGateway :=
  { g with config := { g.config with interceptors :=
      { g.config.interceptors with response := g.config.interceptors.response ++ [t] } } }

/-- `APIGateway.normalizePath`: prepend `/` when missing, strip one
trailing slash (`replace(/\/$/, '')`), and an empty result becomes
`/`. -/
def normalizePath (path : String) : String :=
  let p := if jsStartsWith path "/" then path else "/" ++ path
  let stripped := if jsEndsWith p "/" then p.dropRight 1 else p
  if stripped = "" then "/" else stripped

/-- Rendering of `url.toString()` with appended `searchParams`.  The
percent-encoding done by the host `URL` class is not modelled; no claim
inspects an encoded URL. -/
def renderUrl (base : String) (query : List (String × String)) : String :=
  match query with
  | [] => base
  | _ => base ++ "?" ++ "&".intercalate (query.map (fun kv => kv.1 ++ "=" ++ kv.2))

/-- Per-call options.  Of the option object only `headers` is ever read
by the modelled pipeline; the final `...options` spread in
`buildRequest` is modelled field-wise over the fields present here. -/
structure CallOptions where
  headers : Option (List (String × String)) := none
deriving DecidableEq, Repr

/-- The request object built by `APIGateway.buildRequest`.  `body` holds
the payload itself rather than its `JSON.stringify` image. -/
structure BuiltRequest where
  url : String
  method : String
  headers : List (String × String)
  body : Option (List (String × String))
  cacheKey : String
deriving DecidableEq, Repr

/-- `APIGateway.buildRequest`.  The headers object is built as
`\x7b...config.headers, ...options.headers, Content-Type json\x7d`, then
authentication is applied; but the request literal ends with
`...options`, so when the caller passed a `headers` option that spread
overwrites the merged headers field with the caller's object. -/
def APIGateway.buildRequest (g : APIGateway) (method path : String)
    (data : List (String × String)) (options : CallOptions) : BuiltRequest :=
  let url := renderUrl (g.baseUrl ++ normalizePath path)
      (if method = "GET" then data else [])
  let merged := mapSet (objMerge g.config.headers (options.headers.getD []))
      "Content-Type" "application/json"
  let merged :=
    match g.config.authentication with
    | some a => applyAuthentication a merged
    | none => merged
  { url := url,
    method := method,
    headers := match options.headers with
      | some h => h
      | none => merged,
    body := if method = "GET" then none else some data,
    cacheKey := method ++ ":" ++ url }

/-! ## APIGatewayFactory (`apiGateway.js`, class `APIGatewayFactory`) -/

/-- The factory: `this.gateways` maps an origin to its client.  JS
object identity of the clients is modelled by allocation ids —
`gateways` maps origin to id, `instances` is the heap, and `nextId` is
the allocator. -/
structure APIGatewayFactory where
  gateways : List (String × Nat)
  instances : List (Nat × APIGateway)
  templates : List (String × RawGatewayConfig)
  nextId : Nat
deriving DecidableEq, Repr

/-- `new APIGatewayFactory()`: empty directory plus the three built-in
templates `rest`, `graphql`, `websocket`. -/
def mkAPIGatewayFactory : APIGatewayFactory :=
  { gateways := [],
    instances := [],
    templates :=
      [("rest",
        { headers := some [("Accept", "application/json")],
          caching := some { ttl := some 300000, maxSize := some 50 },
          retries := some 3, timeout := some 30000 }),
       ("graphql",
        { headers := some [("Content-Type", "application/json")],
          retries := some 2, timeout := some 60000 }),
       ("websocket",
        { retries := some 5, timeout := some 10000 })],
    nextId := 0 }

/-- `APIGatewayFactory.create(url, config)`: the source first computes
`new URL(url).origin`; URL parsing is external, so the embedding takes
the origin directly.  Returns the existing client when the origin is
registered, else allocates, registers and returns a new one. -/
def APIGatewayFactory.create (f : APIGatewayFactory) (origin : String)
    (config : RawGatewayConfig) : Nat × APIGatewayFactory :=
  match mapGet f.gateways origin with
  | some id => (id, f)
  | none =>
      (f.nextId,
       { f with
         gateways := mapSet f.gateways origin f.nextId,
         instances := mapSet f.instances f.nextId (mkAPIGateway origin config),
         nextId := f.nextId + 1 })

/-- `createFromTemplate`: throws when the template is unregistered, else
merges `\x7b...template, ...overrides\x7d` and delegates to `create`. -/
def APIGatewayFactory.createFromTemplate (f : APIGatewayFactory)
    (origin templateName : String) (overrides : RawGatewayConfig) :
    Except String (Nat × APIGatewayFactory) :=
  match mapGet f.templates templateName with
  | none => .error ("Template not found: " ++ templateName)
  | some t => .ok (f.create origin (jsConfigMerge t overrides))

/-! ## ProxyManager (`background.js`, class `ProxyManager`) -/

/-- A proxy endpoint record `\x7bhost, port, type, name\x7d`.  The JS
key `type` is spelled `scheme` here (it feeds the `scheme` field of the
Chrome proxy rule). -/
structure ProxyEndpoint where
  host : String
  port : Nat
  scheme : String
  name : Option String
deriving DecidableEq, Repr

/-- The `this.stats` record.  `startTime` is the `Date.now()` at
construction. -/
structure ProxyStats where
  totalRequests : Nat
  rotations : Nat
  startTime : Nat
deriving DecidableEq, Repr

/-- Result record of `createAPIGatewayForURL`. -/
structure GatewayCreateResult where
  success : Bool
  gateway : Option Nat
  message : String
deriving DecidableEq, Repr

/-- The `ProxyManager` state.  `currentProxyIndex` is `none` when the JS
value is `NaN` (from `x % 0`).  The `localProxy` connector and
`useLocalProxy` flag drive only the out-of-scope management service and
are omitted, as are the tab listener handles. -/
structure ProxyManager where
  proxyEndpoints : List ProxyEndpoint
  currentProxyIndex : Option Nat
  isEnabled : Bool
  rotationMode : String
  requestCount : Nat
  rotateEveryNRequests : Nat
  apiGateways : List String
  autoRotateMode : Bool
  autoRotateWhitelist : List String
  autoRotateBlacklist : List String
  tabProxyMap : List (Nat × String)
  activeGateways : List (String × Nat)
  gatewayFactory : APIGatewayFactory
  stats : ProxyStats
deriving DecidableEq, Repr

/-- The manager right after `new ProxyManager()` plus `init()` over an
empty storage (all storage keys absent, so every default applies);
`Date.now()` at start is taken as 0. -/
def mkProxyManager : ProxyManager :=
  { proxyEndpoints :=
      [{ host := "127.0.0.1", port := 8888, scheme := "http",
         name := some "Local AWS Proxy" }],
    currentProxyIndex := some 0,
    isEnabled := false,
    rotationMode := "sequential",
    requestCount := 0,
    rotateEveryNRequests := 1,
    apiGateways := [],
    autoRotateMode := false,
    autoRotateWhitelist := [],
    autoRotateBlacklist := ["localhost", "127.0.0.1", "chrome://", "chrome-extension://"],
    tabProxyMap := [],
    activeGateways := [],
    gatewayFactory := mkAPIGatewayFactory,
    stats := { totalRequests := 0, rotations := 0, startTime := 0 } }

/-- `(i + 1) % n` on the JS number line: `none` is `NaN`, and `x % 0` is
`NaN` for every `x`. -/
def seqNext (idx : Option Nat) (n : Nat) : Option Nat :=
  match idx with
  | none => none
  | some i => if n = 0 then none else some ((i + 1) % n)

/-- `Math.floor(Math.random() * n)` given the draw: `0` when `n = 0`
(the product is `0`), otherwise a value in `[0, n)`. -/
def randNext (draw n : Nat) : Option Nat :=
  if n = 0 then some 0 else some (draw % n)

/-- `ProxyManager.rotateProxy`: advance the index per
`this.rotationMode` (any other mode string leaves it alone), bump
`stats.rotations`.  `updateProxy()` and the runtime notification only
push state to the host proxy mechanism and the popup; they do not alter
the manager. -/
def ProxyManager.rotateProxy (s : ProxyManager) (draw : Nat) : ProxyManager :=
  let n := s.proxyEndpoints.length
  let idx :=
    if s.rotationMode = "sequential" then seqNext s.currentProxyIndex n
    else if s.rotationMode = "random" then randNext draw n
    else s.currentProxyIndex
  { s with currentProxyIndex := idx,
           stats := { s.stats with rotations := s.stats.rotations + 1 } }

/-- `ProxyManager.handleRequest`: no-op when disabled; else bump
`requestCount` and `stats.totalRequests`, and when the count reaches
`rotateEveryNRequests`, rotate and reset the count. -/
def ProxyManager.handleRequest (s : ProxyManager) (draw : Nat) : ProxyManager :=
  if s.isEnabled then
    let s1 := { s with requestCount := s.requestCount + 1,
                       stats := { s.stats with
                         totalRequests := s.stats.totalRequests + 1 } }
    if s1.rotateEveryNRequests ≤ s1.requestCount then
      { s1.rotateProxy draw with requestCount := 0 }
    else s1
  else s

/-- `ProxyManager.updateProxyEndpoints`: replace the list; reset the
index to 0 when `currentProxyIndex >= endpoints.length`.  A `NaN` index
(`none`) compares `false` under `>=` in JS, so it is never reset. -/
def ProxyManager.updateProxyEndpoints (s : ProxyManager)
    (endpoints : List ProxyEndpoint) : ProxyManager :=
  let s1 := { s with proxyEndpoints := endpoints }
  match s1.currentProxyIndex with
  | none => s1
  | some i =>
      if endpoints.length ≤ i then { s1 with currentProxyIndex := some 0 } else s1

/-- Iterate `handleRequest` over a stream of random draws. -/
def ProxyManager.runRequests (s : ProxyManager) (draws : Nat → Nat) :
    Nat → ProxyManager
  | 0 => s
  | n + 1 => ProxyManager.runRequests (s.handleRequest (draws 0))
      (fun i => draws (i + 1)) n

/-- The result of the host `new URL(u)` call as consumed by
`shouldAutoRotate`: the `protocol` (with trailing colon, e.g.
`"https:"`) and the `hostname`. -/
structure URLParts where
  protocol : String
  hostname : String
deriving DecidableEq, Repr

/-- `ProxyManager.shouldAutoRotate(url)`: `parse` is the outcome of
`new URL(url)` (`none` = the constructor threw, caught as `return
false`).  Non-`http`-prefixed protocols are rejected; any blacklist
entry contained in the hostname or in the full URL vetoes; an empty
whitelist admits, a non-empty one requires a hostname match. -/
def ProxyManager.shouldAutoRotate (s : ProxyManager) (url : String)
    (parse : Option URLParts) : Bool :=
  match parse with
  | none => false
  | some p =>
      if ¬ jsStartsWith p.protocol "http" then false
      else if s.autoRotateBlacklist.any
          (fun b => jsIncludes p.hostname b || jsIncludes url b) then false
      else if s.autoRotateWhitelist.isEmpty then true
      else s.autoRotateWhitelist.any (fun w => jsIncludes p.hostname w)

/-- The two identity headers `createAPIGatewayForURL` stamps on every
gateway config: `chrome.runtime.getURL('')` and `chrome.runtime.id` are
host values, abstracted as fixed strings. -/
def chromeIdentityHeaders : List (String × String) :=
  [("Origin", "chrome-extension://proxyforge/"),
   ("X-Extension-Id", "proxyforge")]

/-- `ProxyManager.createAPIGatewayForURL(url, config)`: `urlOrigin` is
`new URL(url).origin` (`none` = the parse threw, landing in the catch).
An origin already in `activeGateways` returns the existing client
untouched; otherwise the config is decorated, a template is chosen from
the URL text, the factory creates (or finds) the client, and the two
controller interceptors are wired on. -/
def ProxyManager.createAPIGatewayForURL (s : ProxyManager) (url : String)
    (urlOrigin : Option String) (config : RawGatewayConfig) :
    GatewayCreateResult × ProxyManager :=
  match urlOrigin with
  | none =>
      ({ success := false, gateway := none, message := "Invalid URL" }, s)
  | some origin =>
      match mapGet s.activeGateways origin with
      | some gid =>
          ({ success := true, gateway := some gid,
             message := "Gateway already exists for this origin" }, s)
      | none =>
          let gatewayConfig : RawGatewayConfig :=
            { config with
              headers := some (objMerge chromeIdentityHeaders (config.headers.getD [])),
              retries := some (jsOrNat config.retries 3),
              timeout := some (jsOrNat config.timeout 30000),
              caching := some (config.caching.getD
                { ttl := some 300000, maxSize := some 50 }) }
          let templateName :=
            if jsIncludes url "graphql" then "graphql"
            else if jsIncludes url "ws://" || jsIncludes url "wss://" then "websocket"
            else "rest"
          match s.gatewayFactory.createFromTemplate origin templateName gatewayConfig with
          | .error e => ({ success := false, gateway := none, message := e }, s)
          | .ok (gid, f1) =>
              let f2 := { f1 with instances :=
                (match mapGet f1.instances gid with
                 | some g => mapSet f1.instances gid
                    ((g.addRequestInterceptor .proxyRouting).addResponseInterceptor
                      .responseTracking)
                 | none => f1.instances) }
              ({ success := true, gateway := some gid,
                 message := "Gateway created for " ++ origin },
               { s with gatewayFactory := f2,
                        activeGateways := mapSet s.activeGateways origin gid })

/-! ## Association-list facts shared by the proofs -/

theorem mapGet_mapSet_self {α β : Type} [DecidableEq α]
    (l : List (α × β)) (k : α) (v : β) : mapGet (mapSet l k v) k = some v := by
  induction l with
  | nil => simp [mapSet, mapGet]
  | cons p t ih =>
      by_cases h : p.1 = k
      · simp [mapSet, mapGet, h]
      · simp [mapSet, mapGet, h, ih]

theorem mapGet_mapSet_ne {α β : Type} [DecidableEq α]
    (l : List (α × β)) (k k' : α) (v : β) (h : k ≠ k') :
    mapGet (mapSet l k v) k' = mapGet l k' := by
  induction l with
  | nil => simp [mapSet, mapGet, h]
  | cons p t ih =>
      by_cases hp : p.1 = k
      · simp [mapSet, mapGet, hp, h]
      · simp [mapSet, mapGet, hp, ih]

theorem mapGet_mem {α β : Type} [DecidableEq α]
    (l : List (α × β)) (k : α) (v : β) (h : mapGet l k = some v) : (k, v) ∈ l := by
  induction l with
  | nil => simp [mapGet] at h
  | cons p t ih =>
      obtain ⟨pk, pv⟩ := p
      by_cases hp : pk = k
      · subst hp
        have hv : pv = v := by simpa [mapGet] using h
        subst hv
        exact List.mem_cons_self _ _
      · simp only [mapGet, if_neg hp] at h
        exact List.mem_cons_of_mem _ (ih h)

/-! ## Claim C4: cache eviction is insertion-order FIFO -/

/-- Claim C4.  Whenever the entry count is at or above `maxSize` before
an insertion, `CacheManager.set` evicts exactly the earliest-inserted
entry still present (the head of the insertion-ordered map) and then
inserts the new entry; concretely, with `maxSize = 2`, inserting
`k1, k2, k3` in order leaves `k1` evicted and `k2, k3` present. -/
theorem cacheSet_evicts_fifo_head :
    (∀ (c : CacheManager) (k0 : String) (e0 : CacheEntry)
        (rest : List (String × CacheEntry)) (key data : String) (now : Nat),
      c.cache = (k0, e0) :: rest → c.maxSize ≤ c.cache.length →
      (c.set key data now).cache = mapSet rest key { data := data, timestamp := now }
      ∧ mapGet (c.set key data now).cache key = some { data := data, timestamp := now })
    ∧ ((((mkCacheManager (some 1000) (some 2)).set "k1" "d1" 0).set "k2" "d2" 0).set
          "k3" "d3" 0).keys = ["k2", "k3"]
    ∧ (((((mkCacheManager (some 1000) (some 2)).set "k1" "d1" 0).set "k2" "d2" 0).set
          "k3" "d3" 0).get "k1" 0).1 = none
    ∧ (((((mkCacheManager (some 1000) (some 2)).set "k1" "d1" 0).set "k2" "d2" 0).set
          "k3" "d3" 0).get "k2" 0).1 = some "d2" := by
  refine ⟨?_, by decide, by decide, by decide⟩
  intro c k0 e0 rest key data now hcache hsize
  have hset : (c.set key data now).cache
      = mapSet rest key { data := data, timestamp := now } := by
    unfold CacheManager.set
    rw [if_pos hsize, hcache]
    simp [mapDelete]
  exact ⟨hset, by rw [hset]; exact mapGet_mapSet_self ..⟩

/-- Witness for C4 at a concrete full cache: the head entry `a` is
evicted and the new entry `c` is appended. -/
theorem cacheSet_evicts_fifo_head_witness :
    ({ ttl := 1000, maxSize := 2,
       cache := [("a", { data := "x", timestamp := 0 }),
                 ("b", { data := "y", timestamp := 0 })] } : CacheManager).cache
        = ("a", { data := "x", timestamp := 0 }) ::
            [("b", { data := "y", timestamp := 0 })]
    ∧ (({ ttl := 1000, maxSize := 2,
          cache := [("a", { data := "x", timestamp := 0 }),
                    ("b", { data := "y", timestamp := 0 })] } : CacheManager).set
          "c" "z" 7).cache
        = mapSet [("b", { data := "y", timestamp := 0 })] "c"
            { data := "z", timestamp := 7 } :=
  ⟨rfl,
   (cacheSet_evicts_fifo_head.1
      { ttl := 1000, maxSize := 2,
        cache := [("a", { data := "x", timestamp := 0 }),
                  ("b", { data := "y", timestamp := 0 })] }
      "a" { data := "x", timestamp := 0 } [("b", { data := "y", timestamp := 0 })]
      "c" "z" 7 rfl (by decide)).1⟩

/-! ## Claim C5: retry exhaustion -/

theorem retryFrom_allFail {E R : Type} (res : Nat → Except E R) (errs : Nat → E)
    (h : ∀ i, res i = .error (errs i)) :
    ∀ (remaining attempt : Nat),
      retryFrom res remaining attempt =
        { attempts := remaining + 1,
          delays := (List.range remaining).map (fun j => 2 ^ (attempt + j) * 1000),
          result := .error (errs (attempt + remaining)) } := by
  intro remaining
  induction remaining with
  | zero => intro attempt; simp [retryFrom, h attempt]
  | succ n ih =>
      intro attempt
      simp only [retryFrom, h attempt, ih (attempt + 1), HandlerOutcome.mk.injEq]
      refine ⟨trivial, ?_, ?_⟩
      · rw [List.range_succ_eq_map, List.map_cons, List.map_map]
        simp only [List.cons.injEq]
        refine ⟨by simp, ?_⟩
        refine List.map_congr_left ?_
        intro a _
        simp only [Function.comp_apply]
        have harith : attempt + 1 + a = attempt + Nat.succ a := by omega
        rw [harith]
      · have harith : attempt + 1 + n = attempt + (n + 1) := by omega
        rw [harith]

/-- Claim C5.  With `retries = m` configured and every attempt failing,
the handler makes exactly `m + 1` attempts, awaits backoff delays
`2 ^ attempt * 1000` ms after every failed attempt except the last
(attempt numbering from 0), surfaces the failure of the last attempt,
and bumps the error counter exactly once. -/
theorem handler_retry_exhaustion {E R : Type} (m : Nat)
    (res : Nat → Except E R) (errs : Nat → E)
    (h : ∀ i, res i = .error (errs i)) :
    (handlerRun m res).attempts = m + 1
    ∧ (handlerRun m res).delays = (List.range m).map (fun a => 2 ^ a * 1000)
    ∧ (handlerRun m res).result = .error (errs m)
    ∧ errorsDelta (handlerRun m res) = 1 := by
  have := retryFrom_allFail res errs h m 0
  unfold handlerRun
  rw [this]
  refine ⟨rfl, List.map_congr_left ?_, by rw [Nat.zero_add], ?_⟩
  · intro a _; rw [Nat.zero_add]
  · simp [errorsDelta]

/-- Witness for C5 at `maxRetries = 2` with every attempt failing with
its own attempt number: 3 attempts, delays 1000 ms then 2000 ms, the
error of attempt 2 surfaces, the error counter bumps once. -/
theorem handler_retry_exhaustion_witness :
    (∀ i, (fun i => (Except.error i : Except Nat Unit)) i = .error i)
    ∧ (handlerRun 2 (fun i => (Except.error i : Except Nat Unit))).attempts = 3
    ∧ (handlerRun 2 (fun i => (Except.error i : Except Nat Unit))).delays = [1000, 2000]
    ∧ (handlerRun 2 (fun i => (Except.error i : Except Nat Unit))).result = .error 2
    ∧ errorsDelta (handlerRun 2 (fun i => (Except.error i : Except Nat Unit))) = 1 := by
  have h := handler_retry_exhaustion 2
    (fun i => (Except.error i : Except Nat Unit)) (fun i => i) (fun i => rfl)
  exact ⟨fun i => rfl, h.1, by rw [h.2.1]; rfl, h.2.2.1, h.2.2.2⟩

/-! ## Claims C1, C2, C3: the rotation controller -/

theorem handleRequest_fields (s : ProxyManager) (d : Nat) :
    (s.handleRequest d).isEnabled = s.isEnabled
    ∧ (s.handleRequest d).rotateEveryNRequests = s.rotateEveryNRequests := by
  unfold ProxyManager.handleRequest ProxyManager.rotateProxy
  by_cases h : s.isEnabled = true
  · simp only [h, if_true]
    split <;> exact ⟨rfl, rfl⟩
  · rw [if_neg h]
    exact ⟨rfl, rfl⟩

theorem handleRequest_counters (s : ProxyManager) (d : Nat) (h : s.isEnabled = true) :
    (s.handleRequest d).stats.totalRequests = s.stats.totalRequests + 1
    ∧ (s.rotateEveryNRequests ≤ s.requestCount + 1 →
        (s.handleRequest d).requestCount = 0
        ∧ (s.handleRequest d).stats.rotations = s.stats.rotations + 1)
    ∧ (¬ s.rotateEveryNRequests ≤ s.requestCount + 1 →
        (s.handleRequest d).requestCount = s.requestCount + 1
        ∧ (s.handleRequest d).stats.rotations = s.stats.rotations) := by
  unfold ProxyManager.handleRequest ProxyManager.rotateProxy
  simp only [h, if_true]
  split
  case isTrue hc =>
      exact ⟨rfl, fun _ => ⟨rfl, rfl⟩, fun hnc => absurd hc hnc⟩
  case isFalse hc =>
      exact ⟨rfl, fun hyes => absurd hyes hc, fun _ => ⟨rfl, rfl⟩⟩

theorem runRequests_inv (t : Nat) (ht : 1 ≤ t) :
    ∀ (n : Nat) (s : ProxyManager) (draws : Nat → Nat),
      s.isEnabled = true → s.rotateEveryNRequests = t → s.requestCount < t →
      (s.runRequests draws n).stats.rotations
          = s.stats.rotations + (s.requestCount + n) / t
      ∧ (s.runRequests draws n).stats.totalRequests = s.stats.totalRequests + n
      ∧ (s.runRequests draws n).requestCount = (s.requestCount + n) % t := by
  intro n
  induction n with
  | zero =>
      intro s draws _ _ hrc
      simp only [ProxyManager.runRequests]
      refine ⟨?_, by omega, ?_⟩
      · rw [Nat.add_zero, Nat.div_eq_of_lt hrc, Nat.add_zero]
      · rw [Nat.add_zero, Nat.mod_eq_of_lt hrc]
  | succ n ih =>
      intro s draws he hthr hrc
      simp only [ProxyManager.runRequests]
      have hfields := handleRequest_fields s (draws 0)
      have hcnt := handleRequest_counters s (draws 0) he
      have h1 : (s.handleRequest (draws 0)).isEnabled = true := by
        rw [hfields.1]; exact he
      have h2 : (s.handleRequest (draws 0)).rotateEveryNRequests = t := by
        rw [hfields.2]; exact hthr
      by_cases hc : t ≤ s.requestCount + 1
      · have hstep := hcnt.2.1 (by rw [hthr]; exact hc)
        have hrct : s.requestCount + 1 = t := by omega
        have h3 : (s.handleRequest (draws 0)).requestCount < t := by
          rw [hstep.1]; omega
        obtain ⟨ihrot, ihtot, ihrc⟩ :=
          ih (s.handleRequest (draws 0)) (fun i => draws (i + 1)) h1 h2 h3
        refine ⟨?_, ?_, ?_⟩
        · rw [ihrot, hstep.1, hstep.2,
            show s.requestCount + (n + 1) = n + t by omega,
            Nat.add_div_right n (by omega : 0 < t), Nat.zero_add,
            Nat.add_assoc, Nat.add_comm 1 (n / t)]
        · rw [ihtot, hcnt.1]; omega
        · rw [ihrc, hstep.1, Nat.zero_add,
            show s.requestCount + (n + 1) = n + t by omega, Nat.add_mod_right]
      · have hstep := hcnt.2.2 (by rw [hthr]; exact hc)
        have h3 : (s.handleRequest (draws 0)).requestCount < t := by
          rw [hstep.1]; omega
        obtain ⟨ihrot, ihtot, ihrc⟩ :=
          ih (s.handleRequest (draws 0)) (fun i => draws (i + 1)) h1 h2 h3
        refine ⟨?_, ?_, ?_⟩
        · rw [ihrot, hstep.1, hstep.2,
            show s.requestCount + 1 + n = s.requestCount + (n + 1) by omega]
        · rw [ihtot, hcnt.1]; omega
        · rw [ihrc, hstep.1,
            show s.requestCount + 1 + n = s.requestCount + (n + 1) by omega]

/-- Claim C1.  With rotation enabled, every observed request bumps both
`requestCount` (the requests-since-rotation counter) and
`stats.totalRequests`; reaching the threshold fires a rotation and
resets the counter; and from a fresh counter state, after exactly
`k * threshold` observed requests the rotation total equals `k`. -/
theorem threshold_rotation_count :
    (∀ (s : ProxyManager) (d : Nat), s.isEnabled = true →
        (s.handleRequest d).stats.totalRequests = s.stats.totalRequests + 1
        ∧ (s.rotateEveryNRequests ≤ s.requestCount + 1 →
            (s.handleRequest d).requestCount = 0
            ∧ (s.handleRequest d).stats.rotations = s.stats.rotations + 1)
        ∧ (s.requestCount + 1 < s.rotateEveryNRequests →
            (s.handleRequest d).requestCount = s.requestCount + 1
            ∧ (s.handleRequest d).stats.rotations = s.stats.rotations))
    ∧ (∀ (s : ProxyManager) (draws : Nat → Nat) (k : Nat),
        s.isEnabled = true → 1 ≤ s.proxyEndpoints.length →
        1 ≤ s.rotateEveryNRequests → s.requestCount = 0 → s.stats.rotations = 0 →
        (s.runRequests draws (k * s.rotateEveryNRequests)).stats.rotations = k
        ∧ (s.runRequests draws (k * s.rotateEveryNRequests)).stats.totalRequests
            = s.stats.totalRequests + k * s.rotateEveryNRequests
        ∧ (s.runRequests draws (k * s.rotateEveryNRequests)).requestCount = 0) := by
  constructor
  · intro s d he
    have hcnt := handleRequest_counters s d he
    exact ⟨hcnt.1, hcnt.2.1, fun hlt => hcnt.2.2 (by omega)⟩
  · intro s draws k he _ ht hrc hrot
    obtain ⟨hr, htot, hcount⟩ :=
      runRequests_inv s.rotateEveryNRequests ht (k * s.rotateEveryNRequests) s draws
        he rfl (by omega)
    refine ⟨?_, htot, ?_⟩
    · rw [hr, hrot, hrc, Nat.zero_add, Nat.zero_add,
        Nat.mul_div_cancel k (by omega : 0 < s.rotateEveryNRequests)]
    · rw [hcount, hrc, Nat.zero_add, Nat.mul_mod_left]

/-- Witness for C1: an enabled manager with one target and threshold 2,
observing 3 * 2 requests, rotates exactly 3 times. -/
theorem threshold_rotation_count_witness :
    ({ mkProxyManager with isEnabled := true, rotateEveryNRequests := 2 } :
        ProxyManager).isEnabled = true
    ∧ 1 ≤ ({ mkProxyManager with isEnabled := true, rotateEveryNRequests := 2 } :
        ProxyManager).proxyEndpoints.length
    ∧ (({ mkProxyManager with isEnabled := true, rotateEveryNRequests := 2 } :
        ProxyManager).runRequests (fun _ => 0)
          (3 * 2)).stats.rotations = 3 :=
  ⟨rfl, by decide,
   (threshold_rotation_count.2
      { mkProxyManager with isEnabled := true, rotateEveryNRequests := 2 }
      (fun _ => 0) 3 rfl (by decide) (by decide) rfl rfl).1⟩

/-- Counterexample to C2: from the (reachable) state obtained by
replacing the target list with the empty list — where the current index
is the number 0 — a sequential `rotateProxy()` does NOT leave the index
unchanged: the JS expression `(0 + 1) % 0` is `NaN` (modelled `none`),
which replaces the numeric index. -/
theorem rotate_empty_not_noop_counterexample :
    ((mkProxyManager.updateProxyEndpoints []).rotateProxy 0).currentProxyIndex
      ≠ (mkProxyManager.updateProxyEndpoints []).currentProxyIndex
    ∧ (mkProxyManager.updateProxyEndpoints []).proxyEndpoints.length = 0
    ∧ (mkProxyManager.updateProxyEndpoints []).currentProxyIndex = some 0
    ∧ ((mkProxyManager.updateProxyEndpoints []).rotateProxy 0).currentProxyIndex
      = none := by
  refine ⟨?_, rfl, rfl, rfl⟩
  decide

/-- Claim C2 as amended.  `rotate()` always increments the rotation
total; with `N ≥ 1` targets, sequential rotation maps a numeric index
`i` to `(i + 1) % N` and random rotation lands in `[0, N)`; with
`N = 0`, the count still increments but the index is NOT left unchanged:
sequential rotation sets it to `NaN` (`none`) and random rotation sets
it to 0.  Sequential rotation over three targets starting at index 0
visits 1, 2, 0, 1. -/
theorem rotate_policy_behaviour :
    (∀ (s : ProxyManager) (d : Nat),
        (s.rotateProxy d).stats.rotations = s.stats.rotations + 1)
    ∧ (∀ (s : ProxyManager) (d i : Nat), s.rotationMode = "sequential" →
        s.currentProxyIndex = some i → 1 ≤ s.proxyEndpoints.length →
        (s.rotateProxy d).currentProxyIndex
          = some ((i + 1) % s.proxyEndpoints.length))
    ∧ (∀ (s : ProxyManager) (d : Nat), s.rotationMode = "sequential" →
        s.proxyEndpoints.length = 0 →
        (s.rotateProxy d).currentProxyIndex = none)
    ∧ (∀ (s : ProxyManager) (d : Nat), s.rotationMode = "random" →
        1 ≤ s.proxyEndpoints.length →
        ∃ j, j < s.proxyEndpoints.length
          ∧ (s.rotateProxy d).currentProxyIndex = some j)
    ∧ (∀ (s : ProxyManager) (d : Nat), s.rotationMode = "random" →
        s.proxyEndpoints.length = 0 →
        (s.rotateProxy d).currentProxyIndex = some 0)
    ∧ (((({ mkProxyManager with proxyEndpoints :=
            [{ host := "a", port := 1, scheme := "http", name := none },
             { host := "b", port := 2, scheme := "http", name := none },
             { host := "c", port := 3, scheme := "http", name := none }] } :
          ProxyManager).rotateProxy 0).currentProxyIndex = some 1)
       ∧ (((({ mkProxyManager with proxyEndpoints :=
            [{ host := "a", port := 1, scheme := "http", name := none },
             { host := "b", port := 2, scheme := "http", name := none },
             { host := "c", port := 3, scheme := "http", name := none }] } :
          ProxyManager).rotateProxy 0).rotateProxy 0).currentProxyIndex = some 2)
       ∧ ((((({ mkProxyManager with proxyEndpoints :=
            [{ host := "a", port := 1, scheme := "http", name := none },
             { host := "b", port := 2, scheme := "http", name := none },
             { host := "c", port := 3, scheme := "http", name := none }] } :
          ProxyManager).rotateProxy 0).rotateProxy 0).rotateProxy 0).currentProxyIndex
            = some 0)
       ∧ (((((({ mkProxyManager with proxyEndpoints :=
            [{ host := "a", port := 1, scheme := "http", name := none },
             { host := "b", port := 2, scheme := "http", name := none },
             { host := "c", port := 3, scheme := "http", name := none }] } :
          ProxyManager).rotateProxy 0).rotateProxy 0).rotateProxy 0).rotateProxy
            0).currentProxyIndex = some 1)) := by
  refine ⟨?_, ?_, ?_, ?_, ?_, by decide, by decide, by decide, by decide⟩
  · intro s d
    unfold ProxyManager.rotateProxy
    rfl
  · intro s d i hm hi hn
    have hn0 : s.proxyEndpoints.length ≠ 0 := by omega
    simp [ProxyManager.rotateProxy, hm, seqNext, hi, hn0]
  · intro s d hm hn
    cases hidx : s.currentProxyIndex with
    | none => simp [ProxyManager.rotateProxy, hm, seqNext, hn, hidx]
    | some i => simp [ProxyManager.rotateProxy, hm, seqNext, hn, hidx]
  · intro s d hm hn
    have hn0 : s.proxyEndpoints.length ≠ 0 := by omega
    refine ⟨d % s.proxyEndpoints.length, Nat.mod_lt d (by omega), ?_⟩
    simp [ProxyManager.rotateProxy, hm, randNext, hn0]
  · intro s d hm hn
    simp [ProxyManager.rotateProxy, hm, randNext, hn]

/-- Witness for C2 (amended): a sequential manager with one target at
index 0 rotates to `(0 + 1) % 1 = 0`. -/
theorem rotate_policy_behaviour_witness :
    mkProxyManager.rotationMode = "sequential"
    ∧ mkProxyManager.currentProxyIndex = some 0
    ∧ 1 ≤ mkProxyManager.proxyEndpoints.length
    ∧ (mkProxyManager.rotateProxy 0).currentProxyIndex
        = some ((0 + 1) % mkProxyManager.proxyEndpoints.length) :=
  ⟨rfl, rfl, by decide,
   rotate_policy_behaviour.2.1 mkProxyManager 0 0 rfl rfl (by decide)⟩

/-- The numeric-index invariant: the current index is an actual number
(not `NaN`), and within range whenever targets exist. -/
def IndexInvariant (s : ProxyManager) : Prop :=
  ∃ i, s.currentProxyIndex = some i
    ∧ (s.proxyEndpoints ≠ [] → i < s.proxyEndpoints.length)

/-- Counterexample to C3: the trace `updateProxyEndpoints([])`,
`rotateProxy()`, `updateProxyEndpoints([a, b])` from the initial manager
ends with two targets but a `NaN` current index (`NaN >= 2` is false in
JS, so the reset does not fire), so the claimed invariant fails after an
operation that was claimed to preserve it. -/
theorem index_invariant_counterexample :
    ((((mkProxyManager.updateProxyEndpoints []).rotateProxy 0).updateProxyEndpoints
        [{ host := "a", port := 1, scheme := "http", name := none },
         { host := "b", port := 2, scheme := "http", name := none }]).proxyEndpoints.length
      = 2)
    ∧ ((((mkProxyManager.updateProxyEndpoints []).rotateProxy 0).updateProxyEndpoints
        [{ host := "a", port := 1, scheme := "http", name := none },
         { host := "b", port := 2, scheme := "http", name := none }]).currentProxyIndex
      = none)
    ∧ ¬ IndexInvariant
        (((mkProxyManager.updateProxyEndpoints []).rotateProxy 0).updateProxyEndpoints
          [{ host := "a", port := 1, scheme := "http", name := none },
           { host := "b", port := 2, scheme := "http", name := none }]) := by
  refine ⟨rfl, rfl, ?_⟩
  rintro ⟨i, hi, -⟩
  have : (none : Option Nat) = some i := by
    rw [← hi]; rfl
  exact Option.noConfusion this

/-- Claim C3 as amended.  The numeric-index invariant (index is a
number, and `< len(targets)` when targets are non-empty) is preserved by
`rotateProxy` under any policy whenever the target list is non-empty, by
random rotation unconditionally, and by `updateProxyEndpoints`
unconditionally; only sequential rotation on an empty list escapes it
(by setting the index to `NaN`), which is what the counterexample
exploits. -/
theorem index_invariant_preservation :
    (∀ (s : ProxyManager) (d : Nat), IndexInvariant s → s.proxyEndpoints ≠ [] →
        IndexInvariant (s.rotateProxy d))
    ∧ (∀ (s : ProxyManager) (d : Nat), IndexInvariant s →
        s.rotationMode = "random" → IndexInvariant (s.rotateProxy d))
    ∧ (∀ (s : ProxyManager) (endpoints : List ProxyEndpoint), IndexInvariant s →
        IndexInvariant (s.updateProxyEndpoints endpoints)) := by
  refine ⟨?_, ?_, ?_⟩
  · rintro s d ⟨i, hi, hlt⟩ hne
    have hn : 1 ≤ s.proxyEndpoints.length := List.length_pos.mpr hne
    have hn0 : s.proxyEndpoints.length ≠ 0 := by omega
    by_cases hm : s.rotationMode = "sequential"
    · refine ⟨(i + 1) % s.proxyEndpoints.length, ?_, fun _ => ?_⟩
      · simp [ProxyManager.rotateProxy, hm, seqNext, hi, hn0]
      · exact Nat.mod_lt _ (by omega)
    · by_cases hr : s.rotationMode = "random"
      · refine ⟨d % s.proxyEndpoints.length, ?_, fun _ => ?_⟩
        · simp [ProxyManager.rotateProxy, hm, hr, randNext, hn0]
        · exact Nat.mod_lt _ (by omega)
      · refine ⟨i, ?_, fun _ => hlt hne⟩
        simp [ProxyManager.rotateProxy, hm, hr, hi]
  · rintro s d ⟨i, hi, hlt⟩ hm
    have hne : s.rotationMode ≠ "sequential" := by rw [hm]; decide
    by_cases hn : s.proxyEndpoints.length = 0
    · refine ⟨0, ?_, fun hne2 => absurd (List.length_eq_zero.mp hn) hne2⟩
      simp [ProxyManager.rotateProxy, hm, randNext, hn]
    · refine ⟨d % s.proxyEndpoints.length, ?_, fun _ => Nat.mod_lt _ (by omega)⟩
      simp [ProxyManager.rotateProxy, hm, randNext, hn]
  · rintro s endpoints ⟨i, hi, -⟩
    unfold ProxyManager.updateProxyEndpoints
    simp only [hi]
    by_cases hc : endpoints.length ≤ i
    · rw [if_pos hc]
      refine ⟨0, rfl, fun hne => List.length_pos.mpr hne⟩
    · rw [if_neg hc]
      exact ⟨i, rfl, fun _ => show i < endpoints.length by omega⟩

/-- Witness for C3 (amended): the invariant holds at the initial manager
and is preserved by one sequential rotation over its non-empty target
list and by one target-list replacement. -/
theorem index_invariant_preservation_witness :
    IndexInvariant mkProxyManager
    ∧ mkProxyManager.proxyEndpoints ≠ []
    ∧ IndexInvariant (mkProxyManager.rotateProxy 0)
    ∧ IndexInvariant (mkProxyManager.updateProxyEndpoints []) :=
  ⟨⟨0, rfl, fun _ => by decide⟩, by decide,
   index_invariant_preservation.1 mkProxyManager 0
     ⟨0, rfl, fun _ => by decide⟩ (by decide),
   index_invariant_preservation.2.2 mkProxyManager []
     ⟨0, rfl, fun _ => by decide⟩⟩

/-! ## Claims C6, C7: auto-rotation eligibility -/

/-- Claim C6.  Any blacklist entry contained in the hostname or in the
full URL makes `shouldAutoRotate` return false, whatever the whitelist
holds; in particular a domain present in both lists is never
eligible. -/
theorem blacklist_always_vetoes :
    (∀ (s : ProxyManager) (url : String) (p : URLParts) (b : String),
        b ∈ s.autoRotateBlacklist →
        (jsIncludes p.hostname b = true ∨ jsIncludes url b = true) →
        s.shouldAutoRotate url (some p) = false)
    ∧ (∀ (s : ProxyManager) (url : String) (p : URLParts) (b : String),
        b ∈ s.autoRotateBlacklist → b ∈ s.autoRotateWhitelist →
        jsIncludes p.hostname b = true →
        s.shouldAutoRotate url (some p) = false) := by
  have main : ∀ (s : ProxyManager) (url : String) (p : URLParts) (b : String),
      b ∈ s.autoRotateBlacklist →
      (jsIncludes p.hostname b = true ∨ jsIncludes url b = true) →
      s.shouldAutoRotate url (some p) = false := by
    intro s url p b hb hmatch
    simp only [ProxyManager.shouldAutoRotate]
    by_cases hp : jsStartsWith p.protocol "http" = true
    · have hany : s.autoRotateBlacklist.any
          (fun x => jsIncludes p.hostname x || jsIncludes url x) = true :=
        List.any_eq_true.mpr ⟨b, hb, by
          rcases hmatch with h | h
          · simp [h]
          · simp [h]⟩
      rw [if_neg (not_not_intro hp), if_pos hany]
    · rw [if_pos hp]
  exact ⟨main, fun s url p b hb _ hhost => main s url p b hb (Or.inl hhost)⟩

/-- Witness for C6: `example.com` sits in both lists, matches the
hostname, and auto-rotation is refused. -/
theorem blacklist_always_vetoes_witness :
    ("example.com" ∈ ({ mkProxyManager with
        autoRotateBlacklist := ["example.com"],
        autoRotateWhitelist := ["example.com"] } :
          ProxyManager).autoRotateBlacklist)
    ∧ ("example.com" ∈ ({ mkProxyManager with
        autoRotateBlacklist := ["example.com"],
        autoRotateWhitelist := ["example.com"] } :
          ProxyManager).autoRotateWhitelist)
    ∧ jsIncludes "example.com" "example.com" = true
    ∧ ({ mkProxyManager with
        autoRotateBlacklist := ["example.com"],
        autoRotateWhitelist := ["example.com"] } :
          ProxyManager).shouldAutoRotate "https://example.com/a"
        (some { protocol := "https:", hostname := "example.com" }) = false :=
  ⟨by decide, by decide, by decide,
   blacklist_always_vetoes.2
     { mkProxyManager with
       autoRotateBlacklist := ["example.com"],
       autoRotateWhitelist := ["example.com"] }
     "https://example.com/a" { protocol := "https:", hostname := "example.com" }
     "example.com" (by decide) (by decide) (by decide)⟩

/-- Counterexample to C7: the scheme check is
`protocol.startsWith('http')`, so the non-HTTP(S) scheme `httpfoo:`
(the WHATWG parse of `httpfoo://shop.com` yields protocol `httpfoo:`
and hostname `shop.com`) is NOT rejected: with empty whitelist and
blacklist `["localhost"]` the check returns true where the claim
requires false. -/
theorem scheme_check_counterexample :
    ({ mkProxyManager with autoRotateBlacklist := ["localhost"] } :
        ProxyManager).shouldAutoRotate "httpfoo://shop.com"
        (some { protocol := "httpfoo:", hostname := "shop.com" }) = true := by
  decide

/-- Claim C7 as amended.  The check fails closed for unparseable URLs
and for any scheme whose protocol string does not begin with `http`
(which covers `ftp:` but not, e.g., `httpfoo:`); with empty whitelist
and blacklist `["localhost"]` it returns false for `ftp://x.com` and
true for `https://shop.com`. -/
theorem fails_closed_amended :
    (∀ (s : ProxyManager) (url : String), s.shouldAutoRotate url none = false)
    ∧ (∀ (s : ProxyManager) (url : String) (p : URLParts),
        jsStartsWith p.protocol "http" = false →
        s.shouldAutoRotate url (some p) = false)
    ∧ ({ mkProxyManager with autoRotateBlacklist := ["localhost"] } :
        ProxyManager).shouldAutoRotate "ftp://x.com"
        (some { protocol := "ftp:", hostname := "x.com" }) = false
    ∧ ({ mkProxyManager with autoRotateBlacklist := ["localhost"] } :
        ProxyManager).shouldAutoRotate "https://shop.com"
        (some { protocol := "https:", hostname := "shop.com" }) = true := by
  refine ⟨fun s url => rfl, ?_, by decide, by decide⟩
  intro s url p hp
  simp only [ProxyManager.shouldAutoRotate]
  rw [if_pos (by simp [hp])]

/-- Witness for C7 (amended) at the `ftp:` scheme. -/
theorem fails_closed_amended_witness :
    jsStartsWith "ftp:" "http" = false
    ∧ mkProxyManager.shouldAutoRotate "ftp://x.com"
        (some { protocol := "ftp:", hostname := "x.com" }) = false :=
  ⟨by decide,
   fails_closed_amended.2.1 mkProxyManager "ftp://x.com"
     { protocol := "ftp:", hostname := "x.com" } (by decide)⟩

/-! ## Claims C8, C10: the gateway registry -/

/-- Well-formedness of the factory directory, true of every factory
reachable from `mkAPIGatewayFactory`: registered ids are below the
allocator and both origins and ids are duplicate-free. -/
def FactoryWF (f : APIGatewayFactory) : Prop :=
  (∀ p ∈ f.gateways, p.2 < f.nextId)
  ∧ (f.gateways.map Prod.fst).Nodup
  ∧ (f.gateways.map Prod.snd).Nodup

/-- Claim C8.  On a well-formed factory, two `create` calls for the same
origin return the identical client instance, and for different origins
they return distinct instances. -/
theorem create_idempotent_by_origin (f : APIGatewayFactory) (o1 o2 : String)
    (c1 c2 : RawGatewayConfig) (hwf : FactoryWF f) :
    (o1 = o2 → ((f.create o1 c1).2.create o2 c2).1 = (f.create o1 c1).1)
    ∧ (o1 ≠ o2 → ((f.create o1 c1).2.create o2 c2).1 ≠ (f.create o1 c1).1) := by
  obtain ⟨hlt, hkeys, hvals⟩ := hwf
  unfold APIGatewayFactory.create
  cases h1 : mapGet f.gateways o1 with
  | some id1 =>
      simp only [h1]
      constructor
      · intro heq
        subst heq
        simp [h1]
      · intro hne
        cases h2 : mapGet f.gateways o2 with
        | some id2 =>
            simp only [h2]
            intro hcontra
            have m1 := mapGet_mem _ _ _ h1
            have m2 := mapGet_mem _ _ _ h2
            have hpair : (o2, id2) = (o1, id1) :=
              List.inj_on_of_nodup_map hvals m2 m1 hcontra
            exact hne (congrArg Prod.fst hpair).symm
        | none =>
            simp only [h2]
            have m1 := mapGet_mem _ _ _ h1
            have := hlt _ m1
            show f.nextId ≠ id1
            omega
  | none =>
      simp only [h1]
      constructor
      · intro heq
        subst heq
        simp [mapGet_mapSet_self]
      · intro hne
        rw [mapGet_mapSet_ne f.gateways o1 o2 f.nextId hne]
        cases h2 : mapGet f.gateways o2 with
        | some id2 =>
            simp only [h2]
            have m2 := mapGet_mem _ _ _ h2
            have := hlt _ m2
            show id2 ≠ f.nextId
            omega
        | none =>
            simp only [h2]
            show f.nextId + 1 ≠ f.nextId
            omega

/-- Witness for C8: on the fresh factory, creating `b.example` after
`a.example` yields a distinct client. -/
theorem create_idempotent_by_origin_witness :
    FactoryWF mkAPIGatewayFactory
    ∧ ("https://a.example" : String) ≠ "https://b.example"
    ∧ ((mkAPIGatewayFactory.create "https://a.example" {}).2.create
          "https://b.example" {}).1
        ≠ (mkAPIGatewayFactory.create "https://a.example" {}).1 :=
  ⟨⟨fun p hp => absurd hp (List.not_mem_nil p), List.nodup_nil, List.nodup_nil⟩,
   by decide,
   (create_idempotent_by_origin mkAPIGatewayFactory "https://a.example"
      "https://b.example" {} {}
      ⟨fun p hp => absurd hp (List.not_mem_nil p), List.nodup_nil,
       List.nodup_nil⟩).2 (by decide)⟩

/-- Claim C10.  When a client already exists for an origin, both the
registry's `create` and the controller's `createAPIGatewayForURL` return
that client and leave the whole state — the stored client and its
configuration included — unchanged; the new configuration argument is
discarded. -/
theorem existing_origin_create_discards_config :
    (∀ (f : APIGatewayFactory) (origin : String) (gid : Nat)
        (cfg : RawGatewayConfig),
        mapGet f.gateways origin = some gid →
        f.create origin cfg = (gid, f))
    ∧ (∀ (s : ProxyManager) (url origin : String) (gid : Nat)
        (cfg : RawGatewayConfig),
        mapGet s.activeGateways origin = some gid →
        s.createAPIGatewayForURL url (some origin) cfg
          = ({ success := true, gateway := some gid,
               message := "Gateway already exists for this origin" }, s)) := by
  constructor
  · intro f origin gid cfg h
    unfold APIGatewayFactory.create
    rw [h]
  · intro s url origin gid cfg h
    simp only [ProxyManager.createAPIGatewayForURL, h]

/-- Witness for C10: after one create for `a.example`, a second create
with a different configuration returns id 0 and the factory untouched;
same for the controller path with the origin registered. -/
theorem existing_origin_create_discards_config_witness :
    mapGet (mkAPIGatewayFactory.create "https://a.example" {}).2.gateways
        "https://a.example" = some 0
    ∧ (mkAPIGatewayFactory.create "https://a.example" {}).2.create
          "https://a.example" { timeout := some 1 }
        = (0, (mkAPIGatewayFactory.create "https://a.example" {}).2)
    ∧ mapGet ({ mkProxyManager with
          activeGateways := [("https://a.example", 0)] } :
            ProxyManager).activeGateways "https://a.example" = some 0
    ∧ ({ mkProxyManager with
          activeGateways := [("https://a.example", 0)] } :
            ProxyManager).createAPIGatewayForURL "https://a.example/x"
          (some "https://a.example") { timeout := some 1 }
        = ({ success := true, gateway := some 0,
             message := "Gateway already exists for this origin" },
           { mkProxyManager with
             activeGateways := [("https://a.example", 0)] }) :=
  ⟨by decide,
   existing_origin_create_discards_config.1
     (mkAPIGatewayFactory.create "https://a.example" {}).2 "https://a.example" 0
     { timeout := some 1 } (by decide),
   by decide,
   existing_origin_create_discards_config.2
     { mkProxyManager with activeGateways := [("https://a.example", 0)] }
     "https://a.example/x" "https://a.example" 0 { timeout := some 1 } (by decide)⟩

/-! ## Claim C9: the forced JSON content type -/

/-- Claim C9 fails on the code: `buildRequest` does merge
`Content-Type: application/json` over the defaults and the per-call
headers (the intent the tests assert), but the request literal ends with
`...options`, which overwrites the merged `headers` field with the
caller's own headers object whenever one was supplied — so a
caller-supplied Content-Type survives verbatim.  Without a per-call
headers object the forced JSON type is present as claimed. -/
theorem options_spread_overrides_merged_headers :
    ((mkAPIGateway "https://api.example.com" {}).buildRequest "GET" "/users" []
        { headers := some [("Content-Type", "text/plain")] }).headers
      = [("Content-Type", "text/plain")]
    ∧ mapGet ((mkAPIGateway "https://api.example.com" {}).buildRequest "GET"
        "/users" [] { headers := some [("Content-Type", "text/plain")] }).headers
        "Content-Type" ≠ some "application/json"
    ∧ mapGet ((mkAPIGateway "https://api.example.com" {}).buildRequest "GET"
        "/users" [] {}).headers "Content-Type" = some "application/json" := by
  refine ⟨by decide, by decide, by decide⟩

end ProxyForge
